import Mathlib

/-!
Verification of the debate-orchestration core (backend `patterns/debate.py`,
`patterns/score_based_termination_strategy.py`, and their wiring in `app.py`).

The Python code is shallowly embedded: pure fragments become Lean functions,
Python exceptions become `Except PyErr`, and the external text-generation
collaborators (the Semantic Kernel `kernel.invoke` calls producing agent
replies, speaker selections, next-action descriptions and evaluator scores)
become oracle functions supplied as arguments, so every theorem quantifies
over all possible collaborator behaviours.  Numeric scores are modelled as
exact rationals: every score literal the system manipulates (integers and
finite decimals on a 1-10 scale, threshold 8.0) is exactly representable,
so rational comparison agrees with the Python float comparison on them.
-/

namespace DebateCore

/-- A Python exception surfaced by the embedded code. -/
inductive PyErr where
  | keyError
  | indexError
  | valueError
  | validationError (field : String)
deriving DecidableEq, Repr

/-- One entry of the `conversation_messages` list handed to
`process_conversation`: a Python dict whose keys `role`, `name`, `content`
may each be absent (`none` models an absent key). -/
structure RawMsg where
  role : Option String
  name : Option String
  content : Option String
deriving DecidableEq, Repr

/-- A `ChatMessageContent` as held in the group-chat history: the role string,
the optional author name, and the content (optional, since a seed dict may
lack the `content` key). -/
structure ChatMsg where
  role : String
  name : Option String
  content : Option String
deriving DecidableEq, Repr

/-- The dict produced by `ChatMessageContent.to_dict()` (and the shape of the
final-artifact payloads, e.g. the placeholder dict with only a `content` key). -/
structure MsgDict where
  role : Option String
  name : Option String
  content : Option String
deriving DecidableEq, Repr

/-- `to_dict()` on a history message. -/
def ChatMsg.toDict (m : ChatMsg) : MsgDict :=
  ⟨some m.role, m.name, m.content⟩

/-- The placeholder artifact from the extraction fallback in
`process_conversation`: a dict holding only `content = "No results available"`. -/
def noResultsDict : MsgDict :=
  ⟨none, none, some "No results available"⟩

/-- An agent as the orchestration core sees it: its unique name (the reply
capability is an external collaborator). -/
structure Agent where
  name : String
deriving DecidableEq, Repr

/-! ### Python `float(...)` parsing

`ScoreBasedTerminationStrategy.should_agent_terminate` computes
`float(str(res_val))`.  `res_val` is already the evaluator's text, so `str`
is the identity; `float` is embedded below for signed finite decimal
literals with surrounding whitespace — the score format the termination
prompt demands ("a single number only").  Exotic accepted forms of the
Python builtin (exponents, `inf`, `nan`, underscores) are outside the
modelled domain; on the modelled domain `pythonFloat` returns `some` exactly
when `float` succeeds, and the exact rational value of the literal. -/

/-- Whitespace accepted around a Python float literal. -/
def isPySpace (c : Char) : Bool :=
  c = ' ' || c = '\t' || c = '\n' || c = '\r'

/-- Strip leading and trailing whitespace. -/
def stripSpaces (cs : List Char) : List Char :=
  ((cs.dropWhile isPySpace).reverse.dropWhile isPySpace).reverse

/-- Strip one optional sign, returning whether it was a minus. -/
def stripSign : List Char → Bool × List Char
  | [] => (false, [])
  | c :: cs =>
    if c = '-' then (true, cs)
    else if c = '+' then (false, cs)
    else (false, c :: cs)

/-- Split at the first dot, if any. -/
def splitDot : List Char → List Char × Option (List Char)
  | [] => ([], none)
  | c :: cs =>
    if c = '.' then ([], some cs)
    else
      let (a, b) := splitDot cs
      (c :: a, b)

/-- Numeric value of a digit string. -/
def digitsToNat (ds : List Char) : Nat :=
  ds.foldl (fun n c => 10 * n + (c.toNat - 48)) 0

/-- Python `float(s)` on signed finite decimal literals: `some` with the
exact rational value on success, `none` where `float` raises `ValueError`. -/
def pythonFloat (s : String) : Option ℚ :=
  let (neg, body) := stripSign (stripSpaces s.data)
  let (ip, fpOpt) := splitDot body
  match fpOpt with
  | none =>
    if !ip.isEmpty && ip.all Char.isDigit then
      let mag : ℚ := mkRat (digitsToNat ip) 1
      some (if neg then -mag else mag)
    else none
  | some fp =>
    if (!ip.isEmpty || !fp.isEmpty) && ip.all Char.isDigit && fp.all Char.isDigit then
      let mag : ℚ := mkRat (digitsToNat (ip ++ fp)) (10 ^ fp.length)
      some (if neg then -mag else mag)
    else none

/-! ### ScoreBasedTerminationStrategy -/

/-- State of a `ScoreBasedTerminationStrategy` instance: the names of the
agents authorized to trigger termination (`agents`), the iteration ceiling,
the score threshold, the mutable iteration counter, and the termination
prompt the `termination_function` was built from. -/
structure ScoreBasedTerminationStrategy where
  agents : List String
  maximum_iterations : Nat
  threshold : ℚ
  iteration : Nat
  termination_function : String
deriving DecidableEq, Repr

/-- Construction of `ScoreBasedTerminationStrategy` as a pydantic model
(`TerminationStrategy` is a pydantic `KernelBaseModel`): `termination_function`
is declared without a default, hence a required field, so omitting it fails
validation; `maximum_iterations`, `threshold` and `iteration` default to
6, 8.0 and 0. -/
def mk_termination_strategy (agents : List String) (maximum_iterations : Nat)
    (termination_function : Option String) : Except PyErr ScoreBasedTerminationStrategy :=
  match termination_function with
  | some f =>
    .ok { agents := agents, maximum_iterations := maximum_iterations,
          threshold := 8, iteration := 0, termination_function := f }
  | none => .error (.validationError "termination_function")

/-- `ScoreBasedTerminationStrategy.should_agent_terminate`: increments the
iteration counter, invokes the termination function on the latest message
(an external generation call whose textual reply is passed in as `res_val`),
parses it with `float` and compares against the threshold; a `ValueError`
from parsing is caught and yields `False` (continue).  Returns the verdict
and the updated strategy state. -/
def should_agent_terminate (s : ScoreBasedTerminationStrategy) (res_val : String) :
    Bool × ScoreBasedTerminationStrategy :=
  let s' := { s with iteration := s.iteration + 1 }
  let should : Bool :=
    match pythonFloat res_val with
    | some v => decide (s.threshold ≤ v)
    | none => false
  (should, s')

/-- Whether the agent that just spoke is allowed to trigger the per-turn
termination check: the framework-level `should_terminate` wrapper skips the
check when a non-empty `agents` list is configured and the speaker is not in
it. -/
def isAuthorized (s : ScoreBasedTerminationStrategy) (agentName : String) : Bool :=
  s.agents.isEmpty || s.agents.contains agentName

/-- Modelled from the spec: the strategy-level guard applied by the group
chat around `should_agent_terminate` (the `TerminationStrategy.should_terminate`
wrapper of the external agent-chat framework, not part of this repository) —
the termination decision runs only when "a designated terminal agent just
spoke"; for any other speaker the verdict is continue and the strategy state
is untouched. -/
def should_terminate (s : ScoreBasedTerminationStrategy) (agentName : String)
    (res_val : String) : Bool × ScoreBasedTerminationStrategy :=
  if isAuthorized s agentName then should_agent_terminate s res_val
  else (false, s)

/-! ### Speaker selection -/

/-- The first item of a kernel-function result value: only its `content` is
read by the selection parser. -/
structure SelContent where
  content : String
deriving DecidableEq, Repr

/-- The result object handed to `parse_selection_output`: `value` is `None`
or a list of content items. -/
structure FunctionResult where
  value : Option (List SelContent)
deriving DecidableEq, Repr

/-- `parse_selection_output` from `_setup_agent_group_chat`: if the result's
`value` is not `None`, return `value[0].content` (an empty value list makes
the subscript raise `IndexError`); otherwise default to `agents[0].name`
(which raises `IndexError` on an empty roster). -/
def parse_selection_output (agents : List Agent) (output : FunctionResult) :
    Except PyErr String :=
  match output.value with
  | some items =>
    match items with
    | [] => .error .indexError
    | c :: _ => .ok c.content
  | none =>
    match agents with
    | [] => .error .indexError
    | a :: _ => .ok a.name

/-! ### DebateConfig and DebatePattern construction -/

/-- The result extractor a caller may configure: a Python callable over the
chronological transcript; it may raise (modelled as `Except.error`). -/
def ResultExtractor : Type :=
  List ChatMsg → Except PyErr MsgDict

/-- The fields of `DebateConfig` that the orchestration core consumes
(kernel handle, execution settings and the two mandatory prompt templates are
opaque collaborator configuration with no bearing on control flow). -/
structure DebateConfig where
  agents : List Agent
  maximum_iterations : Int
  termination_agents : Option (List Agent)
  termination_prompt : Option String
  result_extractor : Option ResultExtractor

/-- Pydantic validation of `DebateConfig`: `agents` carries
`min_length=1`, `maximum_iterations` carries `ge=1` (field validation), and
the `check_termination_agents` model validator then requires every
termination agent's name to appear among the main agents (skipped when the
`termination_agents` list is `None` or empty, per Python truthiness). -/
def validate_debate_config (agents : List Agent) (maximum_iterations : Int)
    (termination_agents : Option (List Agent)) (termination_prompt : Option String)
    (result_extractor : Option ResultExtractor) : Except PyErr DebateConfig :=
  if agents.length < 1 then .error (.validationError "agents")
  else if maximum_iterations < 1 then .error (.validationError "maximum_iterations")
  else
    let names := agents.map Agent.name
    let ok : Bool :=
      match termination_agents with
      | none => true
      | some tas => tas.all (fun a => names.contains a.name)
    if ok then
      .ok { agents := agents, maximum_iterations := maximum_iterations,
            termination_agents := termination_agents,
            termination_prompt := termination_prompt,
            result_extractor := result_extractor }
    else .error (.validationError "termination_agents")

/-- A constructed `DebatePattern`: the roster, the installed termination
strategy and the optional result extractor (the selection strategy is the
external selection oracle plus `parse_selection_output`). -/
structure DebatePattern where
  agents : List Agent
  strategy : ScoreBasedTerminationStrategy
  result_extractor : Option ResultExtractor

/-- `DebatePattern.__init__` plus `_setup_agent_group_chat` on a validated
config: `self.termination_agents = config.termination_agents or []`, the
strategy receives `self.termination_agents or self.agents` and the configured
`maximum_iterations`; with a termination prompt the strategy is built with
that prompt as its `termination_function`, and without one the `else` branch
builds `ScoreBasedTerminationStrategy` omitting the required
`termination_function` field. -/
def mk_debate_pattern (cfg : DebateConfig) : Except PyErr DebatePattern := do
  let termAgents :=
    match cfg.termination_agents with
    | none => cfg.agents
    | some tas => if tas.isEmpty then cfg.agents else tas
  let strat ← mk_termination_strategy (termAgents.map Agent.name)
    cfg.maximum_iterations.toNat cfg.termination_prompt
  .ok { agents := cfg.agents, strategy := strat,
        result_extractor := cfg.result_extractor }

/-! ### The turn loop and `process_conversation` -/

/-- One executed turn as decided by the external collaborators: the selected
speaker's name and the content of its reply. -/
structure Turn where
  speaker : String
  content : String
deriving DecidableEq, Repr

/-- The history message appended by a turn (agent replies carry the
assistant role and the speaking agent's name). -/
def Turn.toMsg (t : Turn) : ChatMsg :=
  ⟨"assistant", some t.speaker, some t.content⟩

/-- Modelled from the spec: the bounded group-chat turn loop driven by the
external `AgentGroupChat.invoke` collaborator (not part of this repository).
Per turn: the selected agent's reply is appended to the transcript and the
termination strategy is consulted for the speaking agent; the loop exits when
the verdict is stop, and unconditionally once the iteration ceiling
(`maximum_iterations` turns, the fuel argument) is reached, regardless of the
scoring signal.  `replies` and `scores` are the collaborator oracles, indexed
by turn number.  Returns the executed turns, the final strategy state and the
final transcript. -/
def runTurns (replies : Nat → Turn) (scores : Nat → String) :
    ScoreBasedTerminationStrategy → List ChatMsg → Nat → Nat →
      List Turn × ScoreBasedTerminationStrategy × List ChatMsg
  | strat, hist, _, 0 => ([], strat, hist)
  | strat, hist, i, fuel + 1 =>
    let t := replies i
    let hist' := hist ++ [t.toMsg]
    let (stop, strat') := should_terminate strat t.speaker (scores i)
    if stop then ([t], strat', hist')
    else
      let (ts, strat'', hist'') := runTurns replies scores strat' hist' (i + 1) fuel
      (t :: ts, strat'', hist'')

/-- The seed-message conversion at the top of `process_conversation`: the
list comprehension filters on `m['role'] in ("assistant", "user")` — a dict
lacking the `role` key raises `KeyError` while the comprehension is built,
before any turn executes; dicts whose role is any other value are silently
dropped; survivors become `ChatMessageContent(role, name, content)` via
`dict.get`. -/
def seedChatHistory : List RawMsg → Except PyErr (List ChatMsg)
  | [] => .ok []
  | m :: ms =>
    match m.role with
    | none => .error .keyError
    | some r =>
      if r == "assistant" || r == "user" then do
        let rest ← seedChatHistory ms
        .ok (⟨r, m.name, m.content⟩ :: rest)
      else seedChatHistory ms

/-- An event of the output stream.  The code yields plain strings; following
the spec's typed event union, a yield of `json.dumps(result)` (the one final
artifact) is tagged `artifact` with the serialized dict as payload, and every
other yield (the optional initial message and the per-turn next-action
descriptions) is tagged `status`. -/
inductive Event where
  | status (text : String)
  | artifact (payload : MsgDict)
deriving DecidableEq, Repr

/-- Whether an event is the JSON-encoded final artifact. -/
def Event.isArtifact : Event → Bool
  | .artifact _ => true
  | .status _ => false

/-- The default extraction at the end of `process_conversation` (no
extractor configured): inside a `try`, take the last transcript message whose
author name equals `agents[0].name`; `IndexError`/`KeyError` (no match makes
the trailing `[-1]` subscript raise; an empty roster makes `agents[0]` raise)
fall back to `all_messages[0].to_dict() if all_messages else` the
"No results available" placeholder. -/
def defaultArtifact (agents : List Agent) (all_messages : List ChatMsg) : MsgDict :=
  let attempt : Option MsgDict :=
    match agents with
    | [] => none
    | a :: _ => ((all_messages.filter (fun r => r.name == some a.name)).getLast?).map ChatMsg.toDict
  match attempt with
  | some d => d
  | none =>
    match all_messages with
    | m :: _ => m.toDict
    | [] => noResultsDict

/-- The final-response block of `process_conversation`: with a configured
extractor, its result is serialized and yielded — an exception inside the
extractor is not caught here; without one, the default extraction (whose
`try`/`except` absorbs `IndexError` and `KeyError`) always yields a dict. -/
def finalArtifact (pat : DebatePattern) (all_messages : List ChatMsg) :
    Except PyErr MsgDict :=
  match pat.result_extractor with
  | some ext => ext all_messages
  | none => .ok (defaultArtifact pat.agents all_messages)

/-- `DebatePattern.process_conversation`: convert and filter the seed
messages (a missing `role` key raises before any turn), add them to the group
chat, yield the optional initial message, run the bounded turn loop yielding
one next-action description per turn (`next_actions` is the describe-next-
action oracle), then read back the transcript in chronological order
(`list(reversed(get_chat_messages()))`) and yield the single final artifact.
The tracing span and session id (`user_id` plus timestamp) carry no control
flow. -/
def process_conversation (pat : DebatePattern) (user_id : String)
    (conversation_messages : List RawMsg) (initial_message : Option String)
    (replies : Nat → Turn) (scores : Nat → String) (next_actions : Nat → String) :
    Except PyErr (List Event) := do
  let chat_history ← seedChatHistory conversation_messages
  let initEvents :=
    match initial_message with
    | some m => [Event.status m]
    | none => []
  let r := runTurns replies scores pat.strategy chat_history 0 pat.strategy.maximum_iterations
  let statusEvents := (List.range r.1.length).map (fun i => Event.status (next_actions i))
  let payload ← finalArtifact pat r.2.2
  .ok (initEvents ++ statusEvents ++ [Event.artifact payload])

/-- `DebatePattern.run_debate`, the public API: delegates to
`process_conversation` unchanged. -/
def run_debate (pat : DebatePattern) (user_id : String)
    (conversation_history : List RawMsg) (initial_message : Option String)
    (replies : Nat → Turn) (scores : Nat → String) (next_actions : Nat → String) :
    Except PyErr (List Event) :=
  process_conversation pat user_id conversation_history initial_message
    replies scores next_actions

/-- The inline result extractor wired in `app.py`: the last transcript
message authored by "Writer"; the trailing `[-1]` raises `IndexError` when no
such message exists. -/
def writerExtractor : ResultExtractor :=
  fun messages =>
    match (messages.filter (fun r => r.name == some "Writer")).getLast? with
    | some m => .ok m.toDict
    | none => .error .indexError

/-! ### General lemmas about the embedded operations -/

/-- The loop executes at most `fuel` turns: the iteration ceiling is a hard
bound independent of every oracle. -/
theorem runTurns_length_le (replies : Nat → Turn) (scores : Nat → String) :
    ∀ (fuel : Nat) (strat : ScoreBasedTerminationStrategy) (hist : List ChatMsg) (i : Nat),
      (runTurns replies scores strat hist i fuel).1.length ≤ fuel := by
  intro fuel
  induction fuel with
  | zero => intro strat hist i; simp [runTurns]
  | succ n ih =>
    intro strat hist i
    simp only [runTurns]
    cases hst : should_terminate strat (replies i).speaker (scores i) with
    | mk stop strat' =>
      cases stop with
      | true => simp
      | false =>
        simp only [Bool.false_eq_true, if_false, List.length_cons]
        exact Nat.succ_le_succ (ih strat' _ _)

/-- The per-turn check leaves the authorized-agents list untouched. -/
theorem should_terminate_agents (s : ScoreBasedTerminationStrategy) (a r : String) :
    (should_terminate s a r).2.agents = s.agents := by
  unfold should_terminate should_agent_terminate
  split <;> rfl

/-- The per-turn check advances the iteration counter by one exactly when the
speaker is authorized. -/
theorem should_terminate_iteration (s : ScoreBasedTerminationStrategy) (a r : String) :
    (should_terminate s a r).2.iteration =
      s.iteration + (if isAuthorized s a then 1 else 0) := by
  unfold should_terminate should_agent_terminate
  split <;> simp_all

/-- An unauthorized speaker can never obtain a stop verdict. -/
theorem should_terminate_stop_authorized (s : ScoreBasedTerminationStrategy) (a r : String)
    (h : (should_terminate s a r).1 = true) : isAuthorized s a = true := by
  unfold should_terminate at h
  by_contra hna
  simp [hna] at h

/-- Across the loop, the authorized-agents list is preserved and the
iteration counter grows by exactly the number of executed turns whose speaker
was authorized. -/
theorem runTurns_agents_iteration (replies : Nat → Turn) (scores : Nat → String) :
    ∀ (fuel : Nat) (strat : ScoreBasedTerminationStrategy) (hist : List ChatMsg) (i : Nat),
      (runTurns replies scores strat hist i fuel).2.1.agents = strat.agents ∧
      (runTurns replies scores strat hist i fuel).2.1.iteration =
        strat.iteration +
          (runTurns replies scores strat hist i fuel).1.countP
            (fun t => isAuthorized strat t.speaker) := by
  intro fuel
  induction fuel with
  | zero => intro strat hist i; simp [runTurns]
  | succ n ih =>
    intro strat hist i
    simp only [runTurns]
    cases hst : should_terminate strat (replies i).speaker (scores i) with
    | mk stop strat' =>
      have hagents : strat'.agents = strat.agents := by
        have := should_terminate_agents strat (replies i).speaker (scores i)
        rw [hst] at this
        exact this
      have hiter : strat'.iteration =
          strat.iteration + (if isAuthorized strat (replies i).speaker then 1 else 0) := by
        have := should_terminate_iteration strat (replies i).speaker (scores i)
        rw [hst] at this
        exact this
      cases stop with
      | true =>
        have hauth : isAuthorized strat (replies i).speaker = true := by
          apply should_terminate_stop_authorized strat (replies i).speaker (scores i)
          rw [hst]
        simp only [if_true, List.countP_cons, List.countP_nil]
        refine ⟨hagents, ?_⟩
        simp [hiter, hauth]
      | false =>
        simp only [Bool.false_eq_true, if_false]
        obtain ⟨ih₁, ih₂⟩ := ih strat' (hist ++ [(replies i).toMsg]) (i + 1)
        constructor
        · rw [ih₁, hagents]
        · have hsame : ∀ t : Turn, isAuthorized strat' t.speaker = isAuthorized strat t.speaker := by
            intro t
            unfold isAuthorized
            rw [hagents]
          rw [List.countP_cons]
          simp only [ih₂, hiter]
          have hcong : (runTurns replies scores strat' (hist ++ [(replies i).toMsg]) (i + 1) n).1.countP
              (fun t => isAuthorized strat' t.speaker) =
              (runTurns replies scores strat' (hist ++ [(replies i).toMsg]) (i + 1) n).1.countP
              (fun t => isAuthorized strat t.speaker) := by
            apply List.countP_congr
            intro t _
            simp [hsame]
          rw [hcong]
          by_cases hauth : isAuthorized strat (replies i).speaker = true <;> simp [hauth] <;> omega

/-! ### Claim theorems -/

/-- C1: for every configuration and every behaviour of the Scoring Evaluator
(in particular one that never reaches the threshold), a `run_debate` session
executes at most `maximum_iterations` turns: the loop stops unconditionally at
the iteration ceiling.  `runTurns` is exactly the turn loop that
`process_conversation` (hence `run_debate`) runs, with the configured
maximum as the ceiling. -/
theorem run_debate_turn_bound (pat : DebatePattern) (hist : List ChatMsg)
    (replies : Nat → Turn) (scores : Nat → String) (i : Nat) :
    (runTurns replies scores pat.strategy hist i pat.strategy.maximum_iterations).1.length ≤
      pat.strategy.maximum_iterations :=
  runTurns_length_le replies scores pat.strategy.maximum_iterations pat.strategy hist i

/-- C3: under the score-threshold policy with threshold 8.0, the per-turn
verdict of `should_agent_terminate` is stop exactly when the evaluator output
parses as a number greater than or equal to 8; an output below the threshold,
or one that does not parse as a number, yields continue. -/
theorem score_threshold_law (s : ScoreBasedTerminationStrategy) (res_val : String)
    (hthr : s.threshold = 8) :
    (should_agent_terminate s res_val).1 = true ↔
      ∃ v : ℚ, pythonFloat res_val = some v ∧ 8 ≤ v := by
  unfold should_agent_terminate
  cases h : pythonFloat res_val with
  | none => simp [h]
  | some v => simp [h, hthr]

/-- Witness for C3 at concrete evaluator outputs: "9" parses as 9 ≥ 8 and
stops, on the default-valued strategy of `app.py` (threshold 8). -/
theorem score_threshold_law_witness :
    (⟨["Critic"], 6, 8, 0, "tp"⟩ : ScoreBasedTerminationStrategy).threshold = 8 ∧
    ((should_agent_terminate ⟨["Critic"], 6, 8, 0, "tp"⟩ "9").1 = true ↔
      ∃ v : ℚ, pythonFloat "9" = some v ∧ 8 ≤ v) :=
  ⟨rfl, score_threshold_law ⟨["Critic"], 6, 8, 0, "tp"⟩ "9" rfl⟩

/-- C4 is false as stated: a selection output that is present but names no
roster member is returned verbatim by `parse_selection_output` — the
fallback to the first roster member ("Writer") does not happen.  The second
conjunct records that "Nobody" is not on the roster. -/
theorem selection_unknown_name_counterexample :
    parse_selection_output [⟨"Writer"⟩, ⟨"Critic"⟩] ⟨some [⟨"Nobody"⟩]⟩ = .ok "Nobody" ∧
    (["Writer", "Critic"].contains "Nobody") = false :=
  ⟨rfl, rfl⟩

/-- C4 (amended): the fallback to the first roster member happens exactly
when the underlying decision produced no value (`output.value is None`); a
present, non-empty value is surfaced verbatim as its first item's content,
whether or not it names a roster member (and an empty value list raises
`IndexError`). -/
theorem selection_fallback_law (agents : List Agent) (a : Agent) (rest : List Agent)
    (output : FunctionResult) (hagents : agents = a :: rest) :
    (output.value = none → parse_selection_output agents output = .ok a.name) ∧
    (∀ c cs, output.value = some (c :: cs) →
      parse_selection_output agents output = .ok c.content) := by
  subst hagents
  constructor
  · intro hv
    simp [parse_selection_output, hv]
  · intro c cs hv
    simp [parse_selection_output, hv]

/-- Witness for C4 (amended): on the roster of `app.py`, a `None` selection
value falls back to "Writer", and a present value "Critic" is surfaced. -/
theorem selection_fallback_law_witness :
    parse_selection_output [⟨"Writer"⟩, ⟨"Critic"⟩] ⟨none⟩ = .ok "Writer" ∧
    parse_selection_output [⟨"Writer"⟩, ⟨"Critic"⟩] ⟨some [⟨"Critic"⟩]⟩ = .ok "Critic" :=
  ⟨(selection_fallback_law [⟨"Writer"⟩, ⟨"Critic"⟩] ⟨"Writer"⟩ [⟨"Critic"⟩] ⟨none⟩ rfl).1 rfl,
   (selection_fallback_law [⟨"Writer"⟩, ⟨"Critic"⟩] ⟨"Writer"⟩ [⟨"Critic"⟩]
      ⟨some [⟨"Critic"⟩]⟩ rfl).2 ⟨"Critic"⟩ [] rfl⟩

/-- C2 is false as stated: with the result extractor configured in `app.py`
(last message authored by "Writer") and a session whose transcript contains no
Writer message, the extractor's `IndexError` aborts the run — no artifact
event is emitted at all, let alone exactly one as the last event. -/
theorem stream_artifact_counterexample :
    process_conversation
      ⟨[⟨"Writer"⟩, ⟨"Critic"⟩], ⟨["Critic"], 6, 8, 0, "tp"⟩, some writerExtractor⟩
      "user1" [⟨some "user", some "user", some "topic"⟩] none
      (fun _ => ⟨"Critic", "I rate this 2"⟩) (fun _ => "9") (fun _ => "next")
      = .error .indexError := by
  rfl

/-- C2 (amended): for every session whose run completes normally (the seed
conversion and the final extraction do not raise), the emitted event stream
contains exactly one artifact-kind event and it is the last event of the
stream. -/
theorem stream_single_artifact (pat : DebatePattern) (uid : String) (msgs : List RawMsg)
    (init : Option String) (replies : Nat → Turn) (scores : Nat → String)
    (na : Nat → String) (evs : List Event)
    (h : process_conversation pat uid msgs init replies scores na = .ok evs) :
    evs.countP Event.isArtifact = 1 ∧
    ∃ p, evs.getLast? = some (Event.artifact p) := by
  unfold process_conversation at h
  cases hs : seedChatHistory msgs with
  | error e => rw [hs] at h; simp [Bind.bind, Except.bind] at h
  | ok ch =>
    rw [hs] at h
    simp only [Bind.bind, Except.bind] at h
    cases hf : finalArtifact pat
        (runTurns replies scores pat.strategy ch 0 pat.strategy.maximum_iterations).2.2 with
    | error e => rw [hf] at h; simp at h
    | ok payload =>
      rw [hf] at h
      simp only [Except.ok.injEq] at h
      subst h
      constructor
      · cases init <;>
          simp [List.countP_append, List.countP_map, Event.isArtifact, List.countP_eq_zero,
            Function.comp, List.countP_cons]
      · exact ⟨payload, by rw [List.getLast?_concat]⟩

/-- Witness for C2 (amended) on a concrete completed session: one status
event, then the single artifact, last. -/
theorem stream_single_artifact_witness :
    ([Event.status "next",
      Event.artifact ⟨some "user", some "user", some "topic"⟩] : List Event).countP
        Event.isArtifact = 1 ∧
    ∃ p, ([Event.status "next",
      Event.artifact ⟨some "user", some "user", some "topic"⟩] : List Event).getLast? =
        some (Event.artifact p) :=
  stream_single_artifact
    ⟨[⟨"Writer"⟩, ⟨"Critic"⟩], ⟨["Critic"], 6, 8, 0, "tp"⟩, none⟩ "u"
    [⟨some "user", some "user", some "topic"⟩] none
    (fun _ => ⟨"Critic", "score 2"⟩) (fun _ => "9") (fun _ => "next") _ (by rfl)

/-- C5 is false as stated: an exception raised inside a configured result
extractor is not caught at the Controller boundary — it propagates to the
caller and no artifact is emitted (here a `KeyError`-raising extractor). -/
theorem extractor_exception_propagates_counterexample :
    process_conversation
      ⟨[⟨"Writer"⟩, ⟨"Critic"⟩], ⟨["Critic"], 6, 8, 0, "tp"⟩,
        some (fun _ => .error .keyError)⟩
      "user2" [⟨some "user", some "user", some "write about dogs"⟩] none
      (fun _ => ⟨"Critic", "10"⟩) (fun _ => "10") (fun _ => "act")
      = .error .keyError := by
  rfl

/-- C5 (amended): the `try`/`except` covers only the default extraction path.
An exception from a configured extractor propagates to the caller as the
session's failure, while with no extractor configured the run always
completes with an event stream (the default policy absorbs its own
`IndexError`/`KeyError`). -/
theorem extraction_error_boundary (pat : DebatePattern) (uid : String)
    (msgs : List RawMsg) (init : Option String) (replies : Nat → Turn)
    (scores : Nat → String) (na : Nat → String) (ch : List ChatMsg)
    (hs : seedChatHistory msgs = .ok ch) :
    (∀ ext e, pat.result_extractor = some ext →
      ext (runTurns replies scores pat.strategy ch 0 pat.strategy.maximum_iterations).2.2 =
        .error e →
      process_conversation pat uid msgs init replies scores na = .error e) ∧
    (pat.result_extractor = none →
      ∃ evs, process_conversation pat uid msgs init replies scores na = .ok evs) := by
  constructor
  · intro ext e hext herr
    unfold process_conversation
    rw [hs]
    simp only [Bind.bind, Except.bind]
    have hfin : finalArtifact pat
        (runTurns replies scores pat.strategy ch 0 pat.strategy.maximum_iterations).2.2 =
        .error e := by
      unfold finalArtifact
      rw [hext]
      exact herr
    rw [hfin]
  · intro hnone
    unfold process_conversation
    rw [hs]
    simp only [Bind.bind, Except.bind]
    have hfin : finalArtifact pat
        (runTurns replies scores pat.strategy ch 0 pat.strategy.maximum_iterations).2.2 =
        .ok (defaultArtifact pat.agents
          (runTurns replies scores pat.strategy ch 0 pat.strategy.maximum_iterations).2.2) := by
      unfold finalArtifact
      rw [hnone]
    rw [hfin]
    exact ⟨_, rfl⟩

/-- Witness for C5 (amended) at concrete sessions: a raising extractor's
error surfaces to the caller, and the no-extractor run completes. -/
theorem extraction_error_boundary_witness :
    process_conversation
      ⟨[⟨"Writer"⟩, ⟨"Critic"⟩], ⟨["Critic"], 6, 8, 0, "tp"⟩,
        some (fun _ => .error .valueError)⟩
      "u" [⟨some "user", some "user", some "q"⟩] none
      (fun _ => ⟨"Critic", "9"⟩) (fun _ => "9") (fun _ => "act")
      = .error .valueError ∧
    ∃ evs, process_conversation
      ⟨[⟨"Writer"⟩, ⟨"Critic"⟩], ⟨["Critic"], 6, 8, 0, "tp"⟩, none⟩
      "u" [⟨some "user", some "user", some "q"⟩] none
      (fun _ => ⟨"Critic", "9"⟩) (fun _ => "9") (fun _ => "act")
      = .ok evs :=
  ⟨(extraction_error_boundary
      ⟨[⟨"Writer"⟩, ⟨"Critic"⟩], ⟨["Critic"], 6, 8, 0, "tp"⟩,
        some (fun _ => .error .valueError)⟩
      "u" [⟨some "user", some "user", some "q"⟩] none
      (fun _ => ⟨"Critic", "9"⟩) (fun _ => "9") (fun _ => "act")
      [⟨"user", some "user", some "q"⟩] (by rfl)).1
      (fun _ => .error .valueError) .valueError rfl rfl,
   (extraction_error_boundary
      ⟨[⟨"Writer"⟩, ⟨"Critic"⟩], ⟨["Critic"], 6, 8, 0, "tp"⟩, none⟩
      "u" [⟨some "user", some "user", some "q"⟩] none
      (fun _ => ⟨"Critic", "9"⟩) (fun _ => "9") (fun _ => "act")
      [⟨"user", some "user", some "q"⟩] (by rfl)).2 rfl⟩

/-- C6 is false as stated: when no transcript message is authored by the
first roster agent, the default extraction emits the oldest transcript
message (`all_messages[0]` of the chronological list), not the most recent
one; the second conjunct records that the two differ here. -/
theorem default_extraction_counterexample :
    defaultArtifact [⟨"Writer"⟩]
      [⟨"assistant", some "Critic", some "one"⟩, ⟨"assistant", some "Critic", some "two"⟩]
      = ChatMsg.toDict ⟨"assistant", some "Critic", some "one"⟩ ∧
    decide (defaultArtifact [⟨"Writer"⟩]
      [⟨"assistant", some "Critic", some "one"⟩, ⟨"assistant", some "Critic", some "two"⟩]
      = ChatMsg.toDict ⟨"assistant", some "Critic", some "two"⟩) = false :=
  ⟨rfl, rfl⟩

/-- C6 (amended): under the default extraction policy, if the transcript has
no message authored by the first roster agent, the emitted artifact is the
oldest (first) message of the chronological transcript; if the transcript is
empty, it is the explicit "No results available" placeholder. -/
theorem default_extraction_fallback_law (a : Agent) (rest : List Agent)
    (msgs : List ChatMsg) (hnone : ∀ m ∈ msgs, m.name ≠ some a.name) :
    defaultArtifact (a :: rest) msgs =
      (match msgs with
       | [] => noResultsDict
       | m :: _ => m.toDict) := by
  have hfilter : msgs.filter (fun r => r.name == some a.name) = [] := by
    rw [List.filter_eq_nil_iff]
    intro m hm
    simpa using hnone m hm
  cases msgs with
  | nil => simp [defaultArtifact]
  | cons m tl => simp [defaultArtifact, hfilter]

/-- Witness for C6 (amended): a transcript without Writer messages yields its
first message; the empty transcript yields the placeholder. -/
theorem default_extraction_fallback_law_witness :
    defaultArtifact [⟨"Writer"⟩] [⟨"user", some "user", some "t"⟩] =
      ChatMsg.toDict ⟨"user", some "user", some "t"⟩ ∧
    defaultArtifact [⟨"Writer"⟩] ([] : List ChatMsg) = noResultsDict :=
  ⟨default_extraction_fallback_law ⟨"Writer"⟩ [] [⟨"user", some "user", some "t"⟩] (by decide),
   default_extraction_fallback_law ⟨"Writer"⟩ [] [] (by simp)⟩

/-- C7: the code contradicts its own stated intent.  The `else` branch of
`_setup_agent_group_chat` is commented "Simple maximum iterations strategy if
no termination prompt", yet it constructs `ScoreBasedTerminationStrategy`
without the required pydantic field `termination_function`, so building the
pattern with no termination prompt fails at construction instead of
installing an iteration-only strategy.  The configuration itself validates
fine (first conjunct); the failure comes from the strategy construction. -/
theorem iteration_only_path_raises :
    (validate_debate_config [⟨"Writer"⟩, ⟨"Critic"⟩] 6 none none none).isOk = true ∧
    mk_debate_pattern
      { agents := [⟨"Writer"⟩, ⟨"Critic"⟩], maximum_iterations := 6,
        termination_agents := none, termination_prompt := none,
        result_extractor := none }
      = .error (.validationError "termination_function") :=
  ⟨rfl, rfl⟩

/-- C8: constructing a `DebateConfig` with an empty roster, a maximum
iteration bound below 1, or a termination agent whose name is absent from the
main roster fails pydantic validation at construction time — before any turn
can execute. -/
theorem config_validation_fails_fast (agents : List Agent) (maximum_iterations : Int)
    (termination_agents : Option (List Agent)) (tp : Option String)
    (ext : Option ResultExtractor)
    (h : agents = [] ∨ maximum_iterations < 1 ∨
      ∃ tas a, termination_agents = some tas ∧ a ∈ tas ∧
        a.name ∉ agents.map Agent.name) :
    (validate_debate_config agents maximum_iterations termination_agents tp ext).isOk =
      false := by
  unfold validate_debate_config
  rcases h with h | h | ⟨tas, a, htas, hmem, hname⟩
  · subst h
    simp [Except.isOk, Except.toBool]
  · by_cases hlen : agents.length < 1
    · simp [hlen, Except.isOk, Except.toBool]
    · simp [hlen, h, Except.isOk, Except.toBool]
  · subst htas
    by_cases hlen : agents.length < 1
    · simp [hlen, Except.isOk, Except.toBool]
    · by_cases hmi : maximum_iterations < 1
      · simp [hlen, hmi, Except.isOk, Except.toBool]
      · have hall : tas.all (fun x => (agents.map Agent.name).contains x.name) = false := by
          rw [List.all_eq_false]
          refine ⟨a, hmem, ?_⟩
          simpa using hname
        rw [if_neg hlen, if_neg hmi]
        simp only [hall]
        simp [Except.isOk, Except.toBool]

/-- Witness for C8 at the three concrete bad configurations of the spec's
scenario C and §8: empty roster, zero iteration bound, and a termination
agent ("Judge") missing from the roster. -/
theorem config_validation_fails_fast_witness :
    (validate_debate_config ([] : List Agent) 6 none none none).isOk = false ∧
    (validate_debate_config [⟨"Writer"⟩] 0 none none none).isOk = false ∧
    (validate_debate_config [⟨"Writer"⟩, ⟨"Critic"⟩] 6 (some [⟨"Judge"⟩])
      none none).isOk = false :=
  ⟨config_validation_fails_fast [] 6 none none none (Or.inl rfl),
   config_validation_fails_fast [⟨"Writer"⟩] 0 none none none (Or.inr (Or.inl (by decide))),
   config_validation_fails_fast [⟨"Writer"⟩, ⟨"Critic"⟩] 6 (some [⟨"Judge"⟩]) none none
     (Or.inr (Or.inr ⟨[⟨"Judge"⟩], ⟨"Judge"⟩, rfl, by decide, by decide⟩))⟩

/-- C9 is false as stated: here six turns complete (all spoken by "Writer",
who is not among the termination agents `["Critic"]` wired in `app.py`), yet
the strategy's iteration counter remains 0 instead of increasing by one per
completed turn; the third conjunct records that 6 and 0 differ. -/
theorem iteration_per_turn_counterexample :
    (runTurns (fun _ => ⟨"Writer", "draft"⟩) (fun _ => "9")
      ⟨["Critic"], 6, 8, 0, "tp"⟩ [] 0 6).1.length = 6 ∧
    (runTurns (fun _ => ⟨"Writer", "draft"⟩) (fun _ => "9")
      ⟨["Critic"], 6, 8, 0, "tp"⟩ [] 0 6).2.1.iteration = 0 ∧
    decide ((6 : Nat) = 0) = false :=
  ⟨rfl, rfl, rfl⟩

/-- C9 (amended): the iteration counter starts at zero, increases by exactly
one on each completed turn whose speaker is authorized to trigger the
termination check (and is unchanged on other turns), and never exceeds the
configured maximum iteration bound. -/
theorem iteration_counter_law (strat : ScoreBasedTerminationStrategy)
    (hist : List ChatMsg) (replies : Nat → Turn) (scores : Nat → String) (i : Nat)
    (h0 : strat.iteration = 0) :
    (runTurns replies scores strat hist i strat.maximum_iterations).2.1.iteration =
      (runTurns replies scores strat hist i strat.maximum_iterations).1.countP
        (fun t => isAuthorized strat t.speaker) ∧
    (runTurns replies scores strat hist i strat.maximum_iterations).2.1.iteration ≤
      strat.maximum_iterations := by
  obtain ⟨-, h2⟩ :=
    runTurns_agents_iteration replies scores strat.maximum_iterations strat hist i
  rw [h0, Nat.zero_add] at h2
  refine ⟨h2, ?_⟩
  rw [h2]
  exact le_trans (List.countP_le_length _)
    (runTurns_length_le replies scores strat.maximum_iterations strat hist i)

/-- Witness for C9 (amended) on a concrete session: one authorized (Critic)
turn out of two executed turns, counter ends at 1 ≤ 6. -/
theorem iteration_counter_law_witness :
    (runTurns (fun n => if n = 0 then ⟨"Writer", "draft"⟩ else ⟨"Critic", "review"⟩)
      (fun _ => "9") ⟨["Critic"], 6, 8, 0, "tp"⟩ [] 0 6).2.1.iteration =
      (runTurns (fun n => if n = 0 then ⟨"Writer", "draft"⟩ else ⟨"Critic", "review"⟩)
        (fun _ => "9") ⟨["Critic"], 6, 8, 0, "tp"⟩ [] 0 6).1.countP
        (fun t => isAuthorized ⟨["Critic"], 6, 8, 0, "tp"⟩ t.speaker) ∧
    (runTurns (fun n => if n = 0 then ⟨"Writer", "draft"⟩ else ⟨"Critic", "review"⟩)
      (fun _ => "9") ⟨["Critic"], 6, 8, 0, "tp"⟩ [] 0 6).2.1.iteration ≤ 6 :=
  iteration_counter_law ⟨["Critic"], 6, 8, 0, "tp"⟩ []
    (fun n => if n = 0 then ⟨"Writer", "draft"⟩ else ⟨"Critic", "review"⟩)
    (fun _ => "9") 0 rfl

/-- C10: a seed message dictionary lacking the `role` key makes the call
raise `KeyError` before any turn executes — for every behaviour of the
collaborators — rather than being filtered out; graceful filtering applies
exactly to messages that do have a role, dropping those whose role is neither
"user" nor "assistant" and converting the rest. -/
theorem seed_role_key_law (msgs : List RawMsg) :
    ((∃ m ∈ msgs, m.role = none) →
      seedChatHistory msgs = .error .keyError ∧
      ∀ (pat : DebatePattern) (uid : String) (init : Option String)
        (replies : Nat → Turn) (scores : Nat → String) (na : Nat → String),
        process_conversation pat uid msgs init replies scores na = .error .keyError) ∧
    ((∀ m ∈ msgs, m.role ≠ none) →
      seedChatHistory msgs =
        .ok (msgs.filterMap (fun m =>
          match m.role with
          | some r =>
            if r == "assistant" || r == "user" then some (⟨r, m.name, m.content⟩ : ChatMsg)
            else none
          | none => none))) := by
  have herr : ∀ ms : List RawMsg, (∃ m ∈ ms, m.role = none) →
      seedChatHistory ms = .error .keyError := by
    intro ms
    induction ms with
    | nil => rintro ⟨m, hm, -⟩; cases hm
    | cons x xs ih =>
      rintro ⟨m, hm, hr⟩
      rcases List.mem_cons.mp hm with rfl | hmem
      · unfold seedChatHistory
        rw [hr]
      · unfold seedChatHistory
        cases hx : x.role with
        | none => rfl
        | some r =>
          have hrec := ih ⟨m, hmem, hr⟩
          by_cases hru : (r == "assistant" || r == "user") = true
          · simp [hru, hrec, Bind.bind, Except.bind]
          · simp [hru, hrec]
  have hok : ∀ ms : List RawMsg, (∀ m ∈ ms, m.role ≠ none) →
      seedChatHistory ms =
        .ok (ms.filterMap (fun m =>
          match m.role with
          | some r =>
            if r == "assistant" || r == "user" then some (⟨r, m.name, m.content⟩ : ChatMsg)
            else none
          | none => none)) := by
    intro ms
    induction ms with
    | nil => intro; rfl
    | cons x xs ih =>
      intro hall
      obtain ⟨r, hr⟩ : ∃ r, x.role = some r := by
        cases hx : x.role with
        | none => exact absurd hx (hall x (by simp))
        | some r => exact ⟨r, rfl⟩
      have hrec := ih (fun m hm => hall m (by simp [hm]))
      unfold seedChatHistory
      rw [hr]
      by_cases hru : (r == "assistant" || r == "user") = true
      · have hru2 : r = "assistant" ∨ r = "user" := by simpa using hru
        simp [hru, hru2, hrec, Bind.bind, Except.bind, List.filterMap_cons, hr]
      · have hru2 : ¬(r = "assistant" ∨ r = "user") := by simpa using hru
        simp [hru, hru2, hrec, List.filterMap_cons, hr]
  refine ⟨fun hex => ⟨herr msgs hex, ?_⟩, hok msgs⟩
  intro pat uid init replies scores na
  unfold process_conversation
  rw [herr msgs hex]
  rfl

/-- Witness for C10: a roleless dict raises `KeyError` end to end, while a
"system" message is gracefully dropped and a "user" message converted. -/
theorem seed_role_key_law_witness :
    seedChatHistory [⟨none, none, some "x"⟩] = .error .keyError ∧
    seedChatHistory [⟨some "system", none, some "s"⟩, ⟨some "user", some "u", some "q"⟩] =
      .ok [⟨"user", some "u", some "q"⟩] :=
  ⟨((seed_role_key_law [⟨none, none, some "x"⟩]).1
      ⟨⟨none, none, some "x"⟩, by simp, rfl⟩).1,
   (seed_role_key_law
      [⟨some "system", none, some "s"⟩, ⟨some "user", some "u", some "q"⟩]).2
      (by simp)⟩

end DebateCore
